import Mathlib

/-!
Shallow embedding of the webhook deployment server (`src/server.py`) and
verification of its specification claims.

The embedding follows the source function by function:
* `validate_signature`  — lines 50-60
* `send_email`          — lines 62-80
* `send_slack`          — lines 96-145
* `send_mattermost`     — lines 147-184
* `send_notifications`  — lines 186-195
* `process_webhook`     — lines 197-240
* `webhook_handler`     — lines 260-276

External effects (the HMAC library, `subprocess.check_output`, the SMTP
session and HTTP POSTs of the chat channels) are passed in as explicit
environment parameters, so every branch of the Python control flow is
reproduced as a pure, executable Lean function.
-/

namespace Webhook

/-- Python `HTTPException(status_code, detail)` as raised by the server. -/
structure HTTPExc where
  status_code : Nat
  detail : String
deriving DecidableEq

/-- Splitting scan for `pySplit`, driven by a character-count fuel so that
the recursion is structural (the fuel never runs out when it starts at the
length of the text).  `acc` holds the current fragment, reversed. -/
def splitAux (sep : List Char) : Nat → List Char → List Char → List (List Char)
  | _, acc, [] => [acc.reverse]
  | 0, acc, s => [acc.reverse ++ s]
  | f + 1, acc, c :: rest =>
    if sep.isPrefixOf (c :: rest) then
      acc.reverse :: splitAux sep f [] ((c :: rest).drop sep.length)
    else splitAux sep f (c :: acc) rest

/-- Python `s.split(sep)` for a non-empty separator: leftmost,
non-overlapping cuts; always returns at least one fragment. -/
def pySplit (s sep : String) : List String :=
  (splitAux sep.data s.data.length [] s.data).map (fun l => String.mk l)

/-- Replacement scan for `pyReplace`, fuel-driven like `splitAux`. -/
def replaceAux (pat rep : List Char) : Nat → List Char → List Char
  | _, [] => []
  | 0, s => s
  | f + 1, c :: rest =>
    if pat.isPrefixOf (c :: rest) then
      rep ++ replaceAux pat rep f ((c :: rest).drop pat.length)
    else c :: replaceAux pat rep f rest

/-- Python `s.replace(pat, rep)` for a non-empty pattern: every leftmost,
non-overlapping occurrence is replaced. -/
def pyReplace (s pat rep : String) : String :=
  String.mk (replaceAux pat.data rep.data s.data.length s.data)

/-- Python `sep.join(parts)`. -/
def pyJoin (sep : String) : List String → String
  | [] => ""
  | [x] => x
  | x :: y :: xs => x ++ sep ++ pyJoin sep (y :: xs)

/-- Truthiness of an optional string, as Python evaluates `if x:` for a
value that is either `None` or a `str` (empty string is falsy). -/
def truthyOpt : Option String → Bool
  | none => false
  | some s => s != ""

/-- Python `dict.get(key)` on a string-valued mapping, embedded as an
association list (first binding wins, as keys are unique in a dict). -/
def pyGet (m : List (String × String)) (k : String) : Option String :=
  (m.find? (fun kv => kv.1 == k)).map (fun kv => kv.2)

/-- Functional behaviour of `hmac.compare_digest` on two strings: equality.
The timing characteristics of the comparison are not representable here. -/
def compare_digest (a b : String) : Bool := a == b

/-- The value the server expects in the `X-Hub-Signature-256` header
(line 59): the literal prefix `sha256=` followed by the hex digest.
`H secret body` stands for `hmac.new(secret.encode(), body, sha256).hexdigest()`;
the HMAC library is external to the repository, so the digest function is a
parameter of the embedding. -/
def expected_signature (H : String → List Nat → String) (secret : String)
    (body : List Nat) : String :=
  "sha256=" ++ H secret body

/-- Lines 50-60: `validate_signature`.  Raising `HTTPException` is embedded
as returning `Except.error`. -/
def validate_signature (H : String → List Nat → String) (secret : String)
    (body : List Nat) (header : Option String) : Except HTTPExc Unit :=
  match header with
  | none => .error ⟨401, "Signature header missing"⟩
  | some sig =>
    if compare_digest (expected_signature H secret body) sig then .ok ()
    else .error ⟨401, "Invalid signature"⟩

/-- One step the email channel performs on the SMTP session (lines 74-77). -/
inductive SmtpStep where
  | connect (server : String) (port : Nat)
  | starttls
  | login (user password : String)
  | sendMessage (dest sender subject body : String)
deriving DecidableEq

/-- The process-level `EMAIL_CONFIG` dict (lines 38-44).  `smtp_port` is
always populated because `int(os.getenv("SMTP_PORT", 587))` supplies a
default; the other entries are `None` when their variable is unset. -/
structure EmailConfig where
  smtp_server : Option String
  smtp_port : Nat
  smtp_user : Option String
  smtp_password : Option String
  from_email : Option String
deriving DecidableEq

/-- The `all([...])` completeness test of line 64: server, user, password
and from-address must be truthy.  The port is not in the list. -/
def emailConfigComplete (c : EmailConfig) : Bool :=
  truthyOpt c.smtp_server && truthyOpt c.smtp_user &&
  truthyOpt c.smtp_password && truthyOpt c.from_email

/-- Result of invoking one notification channel function.  `crashed` marks
an exception escaping the channel function itself (possible in the chat
channels, whose message parsing happens outside their `try` block);
`deliveryFailed` marks an exception caught inside the channel by its own
`try/except` and logged. -/
inductive ChannelOutcome where
  | skipped (warn : String)
  | delivered
  | deliveryFailed (err : String)
  | crashed (err : String)
deriving DecidableEq

/-- The ordered SMTP interaction send_email performs when the
configuration is complete (lines 74-77): connect, STARTTLS, login, send. -/
def emailSteps (cfg : EmailConfig) (dest subject body : String) : List SmtpStep :=
  [ .connect (cfg.smtp_server.getD "") cfg.smtp_port,
    .starttls,
    .login (cfg.smtp_user.getD "") (cfg.smtp_password.getD ""),
    .sendMessage dest (cfg.from_email.getD "") subject body ]

/-- Lines 62-80: `send_email`.  `smtp` is the SMTP session of the environment:
given the steps the code performs, it either completes (`.ok`) or raises
(`.error e`); the `try/except` of lines 73-80 catches and logs every
exception, so the function never crashes. -/
def send_email (cfg : EmailConfig) (smtp : List SmtpStep → Except String Unit)
    (dest subject body : String) : ChannelOutcome :=
  if !(emailConfigComplete cfg) then
    .skipped "Email configuration incomplete, skipping email notification"
  else
    match smtp (emailSteps cfg dest subject body) with
    | .ok _ => .delivered
    | .error e => .deliveryFailed ("Failed to send email: " ++ e)

/-- Line 188: the single formatted string `send_notifications` builds from
the structured fields before handing it to every channel. -/
def mk_message (project status details : String) : String :=
  "Webhook for " ++ project ++ " - Status: " ++ status ++ "\nDetails: " ++ details

/-- Lines 102-107 (and their duplicate, lines 153-158): the chat channels
re-parse the formatted message back into project name, status and details.
`lines[0]` and `project_info[0]` always exist (`str.split` never returns an
empty list); `project_info[1]` raises `IndexError` — whose text is
`list index out of range` — when the first line holds no " - ". -/
def parse_message (message : String) : Except String (String × String × String) :=
  let lines := pySplit message "\n"
  let project_info := pySplit (lines.headD "") " - "
  match project_info.get? 1 with
  | none => .error "list index out of range"
  | some statusField =>
    let project_name := pyReplace (project_info.headD "") "Webhook for " ""
    let status := pyReplace statusField "Status: " ""
    let details := pyJoin "\n" (lines.drop 2)
    .ok (project_name, status, details)

/-- Lines 96-145: `send_slack`.  `post` is the outcome the environment assigns to the
HTTP POST (lines 140-142): `true` when it returns 2xx.  The parse of lines
102-107 sits outside the `try`, so its `IndexError` escapes the function. -/
def send_slack (token : Option String) (post : Bool) (message url : String) :
    ChannelOutcome :=
  if !(truthyOpt token) || url == "" then
    .skipped "Slack configuration incomplete, skipping Slack notification"
  else
    match parse_message message with
    | .error e => .crashed e
    | .ok _ =>
      if post then .delivered
      else .deliveryFailed "Failed to send Slack notification"

/-- Lines 147-184: `send_mattermost`, same shape as `send_slack` but with
no token requirement. -/
def send_mattermost (post : Bool) (message url : String) : ChannelOutcome :=
  if url == "" then
    .skipped "Mattermost webhook URL not provided, skipping Mattermost notification"
  else
    match parse_message message with
    | .error e => .crashed e
    | .ok _ =>
      if post then .delivered
      else .deliveryFailed "Failed to send Mattermost notification"

/-- Process-level configuration read from the environment at startup:
`SLACK_TOKEN` (line 46) and `EMAIL_CONFIG` (lines 38-44). -/
structure StaticEnv where
  slackToken : Option String
  emailCfg : EmailConfig

/-- Outcomes of the external deliveries a single `send_notifications` call
can attempt: the SMTP session and the two chat-webhook POSTs. -/
structure DeliveryEnv where
  smtp : List SmtpStep → Except String Unit
  slackPost : Bool
  mattermostPost : Bool

/-- Third (mattermost) step of `send_notifications` (lines 194-195),
shared by the two paths through the slack step. -/
def mattermostStep (de : DeliveryEnv) (message : String)
    (notif : List (String × String)) (acc : List (String × ChannelOutcome)) :
    List (String × ChannelOutcome) × Option String :=
  if truthyOpt (pyGet notif "mattermost_webhook") then
    let r := send_mattermost de.mattermostPost message
      ((pyGet notif "mattermost_webhook").getD "")
    match r with
    | .crashed e => (acc ++ [("mattermost_webhook", r)], some e)
    | _ => (acc ++ [("mattermost_webhook", r)], none)
  else (acc, none)

/-- First (email) step of `send_notifications` (lines 190-191): the email
channel call made when an email destination is configured. -/
def emailStep (st : StaticEnv) (de : DeliveryEnv) (project message : String)
    (notif : List (String × String)) : List (String × ChannelOutcome) :=
  if truthyOpt (pyGet notif "email") then
    [("email", send_email st.emailCfg de.smtp ((pyGet notif "email").getD "")
      ("Webhook Update: " ++ project) message)]
  else []

/-- Lines 186-195: `send_notifications`.  Channels are invoked in source
order (email, slack, mattermost) whenever their destination is truthy; a
crash escaping a channel function aborts the remaining channels and
propagates (second component `some e`).  The first component records the
channel calls actually made. -/
def send_notifications (st : StaticEnv) (de : DeliveryEnv)
    (project status details : String) (notif : List (String × String)) :
    List (String × ChannelOutcome) × Option String :=
  let message := mk_message project status details
  let emailCalls := emailStep st de project message notif
  if truthyOpt (pyGet notif "slack_webhook") then
    let r := send_slack st.slackToken de.slackPost message
      ((pyGet notif "slack_webhook").getD "")
    match r with
    | .crashed e => (emailCalls ++ [("slack_webhook", r)], some e)
    | _ => mattermostStep de message notif (emailCalls ++ [("slack_webhook", r)])
  else mattermostStep de message notif emailCalls

/-- Outcome of one `subprocess.check_output` invocation (lines 216-221).
`exitFail` is a `CalledProcessError` from a non-zero exit: it carries the
captured combined output, but that output appears only in the exception
OBJECT (`e.output`), not in `str(e)`.  `spawnErr` is any other exception
(e.g. `FileNotFoundError`), whose `str` is its message. -/
inductive CmdResult where
  | ok (output : String)
  | exitFail (output : String) (returncode : Nat)
  | spawnErr (msg : String)
deriving DecidableEq

/-- Python `str(list_of_strings)`, as used by `CalledProcessError.__str__`
when the command was given as a list (quote escaping inside tokens is not
modelled; the tokens used here contain no quotes). -/
def pyListRepr (cmd : List String) : String :=
  "[" ++ pyJoin ", " (cmd.map (fun t => "\x27" ++ t ++ "\x27")) ++ "]"

/-- `str(CalledProcessError(rc, cmd))` for a positive exit code: note that
the captured output is NOT part of this text. -/
def calledProcessErrorStr (cmd : List String) (rc : Nat) : String :=
  "Command \x27" ++ pyListRepr cmd ++ "\x27 returned non-zero exit status "
    ++ toString rc ++ "."

/-- The per-command label line 222 builds for a successful command. -/
def commandLabel (cmd : List String) (output : String) : String :=
  "Command " ++ pyJoin " " cmd ++ ": " ++ output

/-- The command loop of lines 213-222: run each command in order, stop at
the first exception.  Returns the commands actually started and either the
labelled outputs of all commands (`.ok`) or the `str` of the exception that
aborted the loop (`.error`). -/
def runCommands (exec : List String → CmdResult) :
    List (List String) → List (List String) × Except String (List String)
  | [] => ([], .ok [])
  | c :: rest =>
    match exec c with
    | .ok out =>
      let r := runCommands exec rest
      (c :: r.1,
        match r.2 with
        | .ok outs => .ok (commandLabel c out :: outs)
        | .error e => .error e)
    | .exitFail _ rc => ([c], .error (calledProcessErrorStr c rc))
    | .spawnErr m => ([c], .error m)

/-- The JSON payload, reduced to the only field the server reads:
`payload.get("ref")` of line 204 (`none` when the key is absent or not a string). -/
structure Payload where
  ref : Option String
deriving DecidableEq

deriving instance DecidableEq for Except

/-- An inbound request: raw body bytes, the `X-Hub-Signature-256` header,
and the result of `await request.json()` (`.error` = JSON decode failure,
whose `str` is carried). -/
structure Req where
  body : List Nat
  signatureHeader : Option String
  payload : Except String Payload
deriving DecidableEq

/-- The configuration entry of a project, after the shape pydantic validates
(lines 82-94): the embedding types the fields directly. -/
structure ProjectCfg where
  name : String
  directory : String
  secret_token : String
  target_branch : String
  commands : List (List String)
  notifications : List (String × String)
deriving DecidableEq

/-- One call of `send_notifications` made while processing a request:
the structured fields passed to the dispatcher and the channel calls it
performed. -/
structure Dispatch where
  project : String
  status : String
  details : String
  calls : List (String × ChannelOutcome)
deriving DecidableEq

/-- How a request terminates: a JSON response dict (embedded as an ordered
field list), a raised `HTTPException`, or a non-HTTP exception escaping
`process_webhook` (which FastAPI would turn into a bare 500). -/
inductive POutcome where
  | ok (fields : List (String × String))
  | httpError (e : HTTPExc)
  | pyError (msg : String)
deriving DecidableEq

/-- Everything observable about processing one request: the terminal
outcome, the commands started, and the notification dispatches made. -/
structure ProcResult where
  outcome : POutcome
  commandsRun : List (List String)
  dispatches : List Dispatch
deriving DecidableEq

/-- Lines 228-233: the `except Exception` handler.  It dispatches a
`Failed` notification and then raises `HTTPException(500, details)`; if
that dispatch itself crashes, the new exception escapes instead and the
500 is never raised. -/
def failedFlow (st : StaticEnv) (de : DeliveryEnv) (cfg : ProjectCfg)
    (ran : List (List String)) (details : String) (pre : List Dispatch) :
    ProcResult :=
  let sn := send_notifications st de cfg.name "Failed" details cfg.notifications
  let d := Dispatch.mk cfg.name "Failed" details sn.1
  match sn.2 with
  | none => ⟨.httpError ⟨500, details⟩, ran, pre ++ [d]⟩
  | some crash => ⟨.pyError crash, ran, pre ++ [d]⟩

/-- Lines 197-240: `process_webhook`.  The `try` block covers signature
validation (re-raised unchanged), JSON parsing, the branch filter with its
`Ignored` dispatch, and the command loop; the success-path dispatch of
line 235 sits OUTSIDE the `try`, so a crash there escapes uncaught. -/
def process_webhook (st : StaticEnv) (de : DeliveryEnv)
    (exec : List String → CmdResult) (H : String → List Nat → String)
    (cfg : ProjectCfg) (req : Req) : ProcResult :=
  match validate_signature H cfg.secret_token req.body req.signatureHeader with
  | .error e => ⟨.httpError e, [], []⟩
  | .ok _ =>
    match req.payload with
    | .error jsonErr => failedFlow st de cfg [] jsonErr []
    | .ok payload =>
      if payload.ref ≠ some cfg.target_branch then
        let ignDetails :=
          "Push was not to the target branch " ++ cfg.target_branch ++ "."
        let sn := send_notifications st de cfg.name "Ignored" ignDetails
          cfg.notifications
        let d0 := Dispatch.mk cfg.name "Ignored" ignDetails sn.1
        match sn.2 with
        | none =>
          ⟨.ok [("message", "Push was not to the target branch, ignoring.")],
            [], [d0]⟩
        | some crash => failedFlow st de cfg [] crash [d0]
      else
        let r := runCommands exec cfg.commands
        match r.2 with
        | .error e => failedFlow st de cfg r.1 e []
        | .ok outs =>
          let details := pyJoin "\n" outs
          let sn := send_notifications st de cfg.name "Success" details
            cfg.notifications
          let d0 := Dispatch.mk cfg.name "Success" details sn.1
          match sn.2 with
          | none =>
            ⟨.ok [("message", "Webhook received and processed for " ++ cfg.name),
                  ("status", "Success"), ("details", details)], r.1, [d0]⟩
          | some crash => ⟨.pyError crash, r.1, [d0]⟩

/-- Project lookup, `PROJECTS.get(project_name)` on the registry. -/
def lookupProject (projects : List (String × ProjectCfg)) (k : String) :
    Option ProjectCfg :=
  (projects.find? (fun kv => kv.1 == k)).map (fun kv => kv.2)

/-- Detail text of the 500 the handler returns when the pydantic model
rejects a configuration.  The only semantic validator is the non-empty
commands check of lines 90-94; the exact pydantic wrapper text around the
message is not reproduced. -/
def configInvalidDetail : String :=
  "Invalid project configuration: At least one command must be specified"

/-- Lines 260-276: `webhook_handler`.  404 when the project is unknown,
500 when its configuration fails validation, otherwise `process_webhook`.
(The Python falsiness test `if not project_config` also sends an empty
config dict to the 404 branch; a typed registry cannot hold such an entry.) -/
def webhook_handler (st : StaticEnv) (de : DeliveryEnv)
    (exec : List String → CmdResult) (H : String → List Nat → String)
    (projects : List (String × ProjectCfg)) (pname : String) (req : Req) :
    ProcResult :=
  match lookupProject projects pname with
  | none => ⟨.httpError ⟨404, "Project not found"⟩, [], []⟩
  | some cfg =>
    if cfg.commands.isEmpty then
      ⟨.httpError ⟨500, configInvalidDetail⟩, [], []⟩
    else process_webhook st de exec H cfg req

/-! ### Derived notions used by the statements -/

/-- Whether a `check_output` invocation returned without raising. -/
def CmdResult.isOk : CmdResult → Bool
  | .ok _ => true
  | _ => false

/-- The captured output of a successful invocation (`""` otherwise). -/
def okOutput : CmdResult → String
  | .ok o => o
  | _ => ""

/-- The `str` of the exception a `check_output` invocation raises, if any. -/
def cmdErrText (cmd : List String) : CmdResult → Option String
  | .ok _ => none
  | .exitFail _ rc => some (calledProcessErrorStr cmd rc)
  | .spawnErr m => some m

/-- Executable substring test (needle occurs contiguously in hay). -/
def strContainsSub (hay needle : String) : Bool :=
  hay.data.tails.any (fun t => needle.data.isPrefixOf t)

/-- The channels a `send_notifications` call invokes, in source order,
as determined by the notification mapping of the project alone. -/
def configuredChannels (n : List (String × String)) : List String :=
  (if truthyOpt (pyGet n "email") then ["email"] else []) ++
  (if truthyOpt (pyGet n "slack_webhook") then ["slack_webhook"] else []) ++
  (if truthyOpt (pyGet n "mattermost_webhook") then ["mattermost_webhook"] else [])

/-- A channel outcome with the success of an attempted delivery forgotten:
what remains cannot depend on whether the external delivery succeeded. -/
inductive CallKind where
  | skipped (w : String)
  | attempted
  | crashed (e : String)
deriving DecidableEq

/-- Classification of a channel outcome that forgets whether an attempted
delivery succeeded, but remembers skips and crashes with their texts. -/
def chanKind : ChannelOutcome → CallKind
  | .skipped w => .skipped w
  | .delivered => .attempted
  | .deliveryFailed _ => .attempted
  | .crashed e => .crashed e

/-- A channel call with its outcome reduced to `chanKind`. -/
def callSkel (c : String × ChannelOutcome) : String × CallKind :=
  (c.1, chanKind c.2)

/-- A dispatch with its channel calls reduced to `callSkel`: everything
about a dispatch except which attempted deliveries succeeded. -/
def dispatchSkel (d : Dispatch) :
    String × String × String × List (String × CallKind) :=
  (d.project, d.status, d.details, d.calls.map callSkel)

/-! ### Concrete fixtures used by witnesses and counterexamples -/

/-- A stand-in digest function for concrete evaluations. -/
def H0 : String → List Nat → String := fun _ _ => "d00d"

/-- An SMTP session that always completes. -/
def smtp0 : List SmtpStep → Except String Unit := fun _ => .ok ()

/-- Deliveries all succeed. -/
def de0 : DeliveryEnv := ⟨smtp0, true, true⟩

/-- Deliveries all fail (SMTP raises, both POSTs non-2xx). -/
def deFail : DeliveryEnv := ⟨fun _ => .error "connection refused", false, false⟩

/-- Slack token present, complete email configuration. -/
def st0 : StaticEnv := ⟨some "tok", ⟨some "smtp.example", 587, some "u", some "p", some "cd@example"⟩⟩

/-- Every command succeeds with output `"hi"`. -/
def exec0 : List String → CmdResult := fun _ => .ok "hi"

/-- `["deploy"]` exits 1 having printed `"boom"`; everything else succeeds. -/
def exec1 : List String → CmdResult :=
  fun c => if c = ["deploy"] then .exitFail "boom" 1 else .ok "late"

/-- The demo project of spec section 8, with a slack channel configured. -/
def cfg0 : ProjectCfg :=
  ⟨"demo", "/srv/demo", "sec", "refs/heads/main", [["echo", "hi"]],
    [("slack_webhook", "http://hook")]⟩

/-- A project whose second command is never reached. -/
def cfg1 : ProjectCfg :=
  ⟨"demo", "/srv/demo", "sec", "refs/heads/main", [["deploy"], ["later"]], []⟩

/-- A correctly signed request for the target branch. -/
def req_ok : Req :=
  ⟨[1, 2, 3], some ("sha256=" ++ H0 "sec" [1, 2, 3]), .ok ⟨some "refs/heads/main"⟩⟩

/-- A correctly signed request for a different branch. -/
def req_dev : Req :=
  ⟨[1, 2, 3], some ("sha256=" ++ H0 "sec" [1, 2, 3]), .ok ⟨some "refs/heads/dev"⟩⟩

/-- A correctly signed request whose payload has no `ref` key. -/
def req_noref : Req :=
  ⟨[1, 2, 3], some ("sha256=" ++ H0 "sec" [1, 2, 3]), .ok ⟨none⟩⟩

/-! ### Basic lemmas about the embedded functions -/

/-- The correctly computed header always passes validation. -/
theorem validate_signature_expected_ok (H : String → List Nat → String)
    (secret : String) (body : List Nat) :
    validate_signature H secret body (some (expected_signature H secret body)) = .ok () := by
  simp [validate_signature, compare_digest]

/-- Every error `validate_signature` produces carries status code 401. -/
theorem validate_signature_error_401 (H : String → List Nat → String)
    (secret : String) (body : List Nat) (header : Option String) (e : HTTPExc)
    (h : validate_signature H secret body header = .error e) :
    e.status_code = 401 := by
  unfold validate_signature at h
  cases header with
  | none => simp at h; simp [← h]
  | some s =>
    simp at h
    split at h
    · exact absurd h (by simp)
    · simp at h; simp [← h]

/-- When every command succeeds, the loop runs all of them in order and
returns every labelled output. -/
theorem runCommands_all_ok (exec : List String → CmdResult)
    (cmds : List (List String)) (h : ∀ c ∈ cmds, (exec c).isOk = true) :
    runCommands exec cmds =
      (cmds, .ok (cmds.map (fun c => commandLabel c (okOutput (exec c))))) := by
  induction cmds with
  | nil => simp [runCommands]
  | cons c rest ih =>
    have hc := h c (List.mem_cons_self c rest)
    cases hexec : exec c with
    | ok o =>
      simp [runCommands, hexec, ih (fun x hx => h x (List.mem_cons_of_mem c hx)),
        okOutput]
    | exitFail o rc => rw [hexec] at hc; simp [CmdResult.isOk] at hc
    | spawnErr m => rw [hexec] at hc; simp [CmdResult.isOk] at hc

/-- When the commands before `c` succeed and `c` raises, the loop starts
exactly the commands up to and including `c` and reports the exception
text; the commands after `c` are never consulted. -/
theorem runCommands_stops (exec : List String → CmdResult)
    (pre : List (List String)) (c : List String) (post : List (List String))
    (e : String) (hpre : ∀ x ∈ pre, (exec x).isOk = true)
    (he : cmdErrText c (exec c) = some e) :
    runCommands exec (pre ++ c :: post) = (pre ++ [c], .error e) := by
  induction pre with
  | nil =>
    cases hexec : exec c with
    | ok o => rw [hexec] at he; simp [cmdErrText] at he
    | exitFail o rc =>
      rw [hexec] at he; simp [cmdErrText] at he
      simp [runCommands, hexec, he]
    | spawnErr m =>
      rw [hexec] at he; simp [cmdErrText] at he
      simp [runCommands, hexec, he]
  | cons x xs ih =>
    have hx := hpre x (List.mem_cons_self x xs)
    cases hexec : exec x with
    | ok o =>
      simp only [List.cons_append, runCommands, hexec, List.append_eq]
      rw [ih (fun y hy => hpre y (List.mem_cons_of_mem x hy))]
    | exitFail o rc => rw [hexec] at hx; simp [CmdResult.isOk] at hx
    | spawnErr m => rw [hexec] at hx; simp [CmdResult.isOk] at hx

/-- A truthy optional string yields a non-empty default extraction. -/
theorem truthy_getD_ne (o : Option String) (ho : truthyOpt o = true) :
    (o.getD "" == "") = false := by
  cases o <;> simp_all [truthyOpt]

/-- The call kind of the email channel does not depend on the SMTP session. -/
theorem send_email_kind (cfg : EmailConfig)
    (s1 s2 : List SmtpStep → Except String Unit) (a b c : String) :
    chanKind (send_email cfg s1 a b c) = chanKind (send_email cfg s2 a b c) := by
  unfold send_email
  split
  · rfl
  · cases s1 (emailSteps cfg a b c) <;> cases s2 (emailSteps cfg a b c) <;> rfl

/-- The email channel never lets an exception escape. -/
theorem send_email_not_crashed (cfg : EmailConfig)
    (smtp : List SmtpStep → Except String Unit) (a b c e : String) :
    send_email cfg smtp a b c ≠ .crashed e := by
  unfold send_email
  split
  · simp
  · cases smtp (emailSteps cfg a b c) <;> simp

/-- The call kind of the slack channel does not depend on the POST outcome. -/
theorem send_slack_kind (tok : Option String) (p1 p2 : Bool) (m u : String) :
    chanKind (send_slack tok p1 m u) = chanKind (send_slack tok p2 m u) := by
  unfold send_slack
  split
  · rfl
  · cases parse_message m with
    | error e => rfl
    | ok tr => cases p1 <;> cases p2 <;> rfl

/-- The call kind of the mattermost channel does not depend on the POST outcome. -/
theorem send_mattermost_kind (p1 p2 : Bool) (m u : String) :
    chanKind (send_mattermost p1 m u) = chanKind (send_mattermost p2 m u) := by
  unfold send_mattermost
  split
  · rfl
  · cases parse_message m with
    | error e => rfl
    | ok tr => cases p1 <;> cases p2 <;> rfl

/-- The call skeleton of the email step does not depend on the SMTP session. -/
theorem emailStep_skel (st : StaticEnv) (d1 d2 : DeliveryEnv)
    (p m : String) (n : List (String × String)) :
    (emailStep st d1 p m n).map callSkel = (emailStep st d2 p m n).map callSkel := by
  unfold emailStep
  split
  · simp only [List.map_cons, List.map_nil, callSkel]
    rw [send_email_kind st.emailCfg d1.smtp d2.smtp]
  · rfl

/-- The call skeleton and crash component of the mattermost step do not depend
on delivery outcomes, given accumulated calls with equal skeletons. -/
theorem mattermostStep_skel (d1 d2 : DeliveryEnv) (m : String)
    (n : List (String × String)) (a1 a2 : List (String × ChannelOutcome))
    (hacc : a1.map callSkel = a2.map callSkel) :
    (mattermostStep d1 m n a1).1.map callSkel =
      (mattermostStep d2 m n a2).1.map callSkel ∧
    (mattermostStep d1 m n a1).2 = (mattermostStep d2 m n a2).2 := by
  unfold mattermostStep
  split
  · have hk := send_mattermost_kind d1.mattermostPost d2.mattermostPost m
      ((pyGet n "mattermost_webhook").getD "")
    rcases h1 : send_mattermost d1.mattermostPost m
        ((pyGet n "mattermost_webhook").getD "") with w1 | _ | e1 | e1 <;>
      rcases h2 : send_mattermost d2.mattermostPost m
        ((pyGet n "mattermost_webhook").getD "") with w2 | _ | e2 | e2 <;>
      rw [h1, h2] at hk <;> simp [chanKind] at hk <;>
      simp_all [callSkel, chanKind]
  · exact ⟨hacc, rfl⟩

/-- The calls made by `send_notifications` (up to delivery success) and
its crash component do not depend on the delivery outcomes. -/
theorem sn_skel_congr (st : StaticEnv) (d1 d2 : DeliveryEnv) (p s d : String)
    (n : List (String × String)) :
    (send_notifications st d1 p s d n).1.map callSkel =
      (send_notifications st d2 p s d n).1.map callSkel ∧
    (send_notifications st d1 p s d n).2 = (send_notifications st d2 p s d n).2 := by
  have he := emailStep_skel st d1 d2 p (mk_message p s d) n
  unfold send_notifications
  split
  · by_cases hskip : (!(truthyOpt st.slackToken)
        || ((pyGet n "slack_webhook").getD "" == "")) = true
    · simp only [send_slack, hskip, if_true]
      exact mattermostStep_skel d1 d2 _ n _ _ (by simp [he, callSkel, chanKind])
    · cases hp : parse_message (mk_message p s d) with
      | error e =>
        simp only [send_slack, hskip, if_false, hp, Bool.false_eq_true]
        exact ⟨by simp [he, callSkel, chanKind], by trivial⟩
      | ok tr =>
        cases hq1 : d1.slackPost <;> cases hq2 : d2.slackPost <;>
          simp only [send_slack, hskip, if_false, hp, hq1, hq2,
            Bool.false_eq_true, if_true] <;>
          exact mattermostStep_skel d1 d2 _ n _ _ (by simp [he, callSkel, chanKind])
  · exact mattermostStep_skel d1 d2 _ n _ _ he

/-- The `except`-handler flow is insensitive to delivery outcomes, up to
delivery success inside the recorded dispatches. -/
theorem failedFlow_congr (st : StaticEnv) (d1 d2 : DeliveryEnv)
    (cfg : ProjectCfg) (ran : List (List String)) (det : String)
    (pre1 pre2 : List Dispatch)
    (hpre : pre1.map dispatchSkel = pre2.map dispatchSkel) :
    (failedFlow st d1 cfg ran det pre1).outcome =
      (failedFlow st d2 cfg ran det pre2).outcome ∧
    (failedFlow st d1 cfg ran det pre1).commandsRun =
      (failedFlow st d2 cfg ran det pre2).commandsRun ∧
    (failedFlow st d1 cfg ran det pre1).dispatches.map dispatchSkel =
      (failedFlow st d2 cfg ran det pre2).dispatches.map dispatchSkel := by
  have h := sn_skel_congr st d1 d2 cfg.name "Failed" det cfg.notifications
  unfold failedFlow
  cases h1 : (send_notifications st d1 cfg.name "Failed" det cfg.notifications).2 with
  | none =>
    have h2 : (send_notifications st d2 cfg.name "Failed" det cfg.notifications).2
        = none := by rw [← h.2]; exact h1
    simp only [h1, h2]
    exact ⟨by trivial, by trivial, by simp [dispatchSkel, h.1, hpre]⟩
  | some c =>
    have h2 : (send_notifications st d2 cfg.name "Failed" det cfg.notifications).2
        = some c := by rw [← h.2]; exact h1
    simp only [h1, h2]
    exact ⟨by trivial, by trivial, by simp [dispatchSkel, h.1, hpre]⟩

/-- The outcome, commands run, and dispatch skeletons of the processor are all
invariant under the delivery outcomes of the notification channels. -/
theorem process_webhook_congr (st : StaticEnv) (d1 d2 : DeliveryEnv)
    (exec : List String → CmdResult) (H : String → List Nat → String)
    (cfg : ProjectCfg) (req : Req) :
    (process_webhook st d1 exec H cfg req).outcome =
      (process_webhook st d2 exec H cfg req).outcome ∧
    (process_webhook st d1 exec H cfg req).commandsRun =
      (process_webhook st d2 exec H cfg req).commandsRun ∧
    (process_webhook st d1 exec H cfg req).dispatches.map dispatchSkel =
      (process_webhook st d2 exec H cfg req).dispatches.map dispatchSkel := by
  unfold process_webhook
  cases hv : validate_signature H cfg.secret_token req.body req.signatureHeader with
  | error e => simp only [hv]; exact ⟨by trivial, by trivial, by trivial⟩
  | ok u =>
    simp only [hv]
    cases hpl : req.payload with
    | error jerr =>
      simp only [hpl]
      exact failedFlow_congr st d1 d2 cfg [] jerr [] [] rfl
    | ok pl =>
      simp only [hpl]
      by_cases hr : pl.ref = some cfg.target_branch
      · rw [if_neg (fun hne => hne hr), if_neg (fun hne => hne hr)]
        cases hr2 : (runCommands exec cfg.commands).2 with
        | error e =>
          simp only [hr2]
          exact failedFlow_congr st d1 d2 cfg _ e [] [] rfl
        | ok outs =>
          simp only [hr2]
          have h := sn_skel_congr st d1 d2 cfg.name "Success"
            (pyJoin "\n" outs) cfg.notifications
          cases h1 : (send_notifications st d1 cfg.name "Success"
              (pyJoin "\n" outs) cfg.notifications).2 with
          | none =>
            have h2 : (send_notifications st d2 cfg.name "Success"
                (pyJoin "\n" outs) cfg.notifications).2 = none := by
              rw [← h.2]; exact h1
            simp only [h1, h2]
            exact ⟨by trivial, by trivial, by simp [dispatchSkel, h.1]⟩
          | some c =>
            have h2 : (send_notifications st d2 cfg.name "Success"
                (pyJoin "\n" outs) cfg.notifications).2 = some c := by
              rw [← h.2]; exact h1
            simp only [h1, h2]
            exact ⟨by trivial, by trivial, by simp [dispatchSkel, h.1]⟩
      · rw [if_pos hr, if_pos hr]
        have h := sn_skel_congr st d1 d2 cfg.name "Ignored"
          ("Push was not to the target branch " ++ cfg.target_branch ++ ".")
          cfg.notifications
        cases h1 : (send_notifications st d1 cfg.name "Ignored"
            ("Push was not to the target branch " ++ cfg.target_branch ++ ".")
            cfg.notifications).2 with
        | none =>
          have h2 : (send_notifications st d2 cfg.name "Ignored"
              ("Push was not to the target branch " ++ cfg.target_branch ++ ".")
              cfg.notifications).2 = none := by rw [← h.2]; exact h1
          simp only [h1, h2]
          exact ⟨by trivial, by trivial, by simp [dispatchSkel, h.1]⟩
        | some c =>
          have h2 : (send_notifications st d2 cfg.name "Ignored"
              ("Push was not to the target branch " ++ cfg.target_branch ++ ".")
              cfg.notifications).2 = some c := by rw [← h.2]; exact h1
          simp only [h1, h2]
          exact failedFlow_congr st d1 d2 cfg [] c _ _ (by simp [dispatchSkel, h.1])

/-- What the `except`-handler flow always does: it preserves the commands
run, appends exactly one `Failed` dispatch, and terminates either with the
500 carrying the failure text or with an escaping exception — never with a
success response. -/
theorem failedFlow_spec (st : StaticEnv) (de : DeliveryEnv) (cfg : ProjectCfg)
    (ran : List (List String)) (det : String) (pre : List Dispatch) :
    (failedFlow st de cfg ran det pre).commandsRun = ran ∧
    (failedFlow st de cfg ran det pre).dispatches =
      pre ++ [⟨cfg.name, "Failed", det,
        (send_notifications st de cfg.name "Failed" det cfg.notifications).1⟩] ∧
    (∀ e, (failedFlow st de cfg ran det pre).outcome = .httpError e →
      e = ⟨500, det⟩) ∧
    (∀ flds, (failedFlow st de cfg ran det pre).outcome ≠ .ok flds) := by
  unfold failedFlow
  cases h2 : (send_notifications st de cfg.name "Failed" det cfg.notifications).2 <;>
    simp [h2]

/-- The channel names of the email step, from the configuration alone. -/
theorem emailStep_fst (st : StaticEnv) (de : DeliveryEnv) (p m : String)
    (n : List (String × String)) :
    (emailStep st de p m n).map Prod.fst =
      (if truthyOpt (pyGet n "email") then ["email"] else []) := by
  unfold emailStep; split <;> rfl

/-- The channel names of the mattermost step, when no crash occurred. -/
theorem mattermostStep_channels (de : DeliveryEnv) (m : String)
    (n : List (String × String)) (acc : List (String × ChannelOutcome))
    (h : (mattermostStep de m n acc).2 = none) :
    (mattermostStep de m n acc).1.map Prod.fst =
      acc.map Prod.fst ++
        (if truthyOpt (pyGet n "mattermost_webhook")
          then ["mattermost_webhook"] else []) := by
  by_cases hc : truthyOpt (pyGet n "mattermost_webhook") = true
  · unfold mattermostStep at h ⊢
    simp only [hc, if_true] at h ⊢
    cases hmm : send_mattermost de.mattermostPost m
        ((pyGet n "mattermost_webhook").getD "") with
    | skipped w => simp
    | delivered => simp
    | deliveryFailed e => simp
    | crashed e => simp [hmm] at h
  · unfold mattermostStep
    simp only [hc]
    simp

/-- When `send_notifications` completes without a crash, it has attempted
exactly the configured channels, in source order. -/
theorem sn_channels (st : StaticEnv) (de : DeliveryEnv) (p s d : String)
    (n : List (String × String))
    (h : (send_notifications st de p s d n).2 = none) :
    (send_notifications st de p s d n).1.map Prod.fst = configuredChannels n := by
  unfold send_notifications at h ⊢
  by_cases hs : truthyOpt (pyGet n "slack_webhook") = true
  · simp only [hs, if_true] at h ⊢
    cases hsl : send_slack st.slackToken de.slackPost (mk_message p s d)
        ((pyGet n "slack_webhook").getD "") with
    | skipped w =>
      rw [hsl] at h
      exact (mattermostStep_channels de (mk_message p s d) n
        (emailStep st de p (mk_message p s d) n
          ++ [("slack_webhook", ChannelOutcome.skipped w)]) h).trans
        (by simp [configuredChannels, emailStep_fst, hs])
    | delivered =>
      rw [hsl] at h
      exact (mattermostStep_channels de (mk_message p s d) n
        (emailStep st de p (mk_message p s d) n
          ++ [("slack_webhook", ChannelOutcome.delivered)]) h).trans
        (by simp [configuredChannels, emailStep_fst, hs])
    | deliveryFailed e =>
      rw [hsl] at h
      exact (mattermostStep_channels de (mk_message p s d) n
        (emailStep st de p (mk_message p s d) n
          ++ [("slack_webhook", ChannelOutcome.deliveryFailed e)]) h).trans
        (by simp [configuredChannels, emailStep_fst, hs])
    | crashed e => rw [hsl] at h; simp at h
  · simp only [hs] at h ⊢
    simp only [Bool.false_eq_true, if_false] at h ⊢
    rw [mattermostStep_channels de _ n _ h]
    simp [configuredChannels, emailStep_fst, hs]

/-! ### The claims -/

/-- C8: signature validation fails with the 401 missing-header error
exactly when the `X-Hub-Signature-256` header is absent, with the 401
invalid-signature error exactly when the header is present but differs
from `sha256=` plus the computed digest, and succeeds in all other cases. -/
theorem validate_signature_cases (H : String → List Nat → String)
    (secret : String) (body : List Nat) (header : Option String) :
    (validate_signature H secret body header
        = .error ⟨401, "Signature header missing"⟩ ↔ header = none) ∧
    (validate_signature H secret body header
        = .error ⟨401, "Invalid signature"⟩
      ↔ ∃ s, header = some s ∧ s ≠ expected_signature H secret body) ∧
    (validate_signature H secret body header = .ok ()
      ↔ header = some (expected_signature H secret body)) := by
  cases header with
  | none => simp [validate_signature]
  | some s =>
    by_cases hs : s = expected_signature H secret body
    · subst hs
      simp [validate_signature, compare_digest]
    · simp [validate_signature, compare_digest, Ne.symm hs, hs]

/-- C8 witness: a request with no signature header is rejected with the
missing-header 401. -/
theorem validate_signature_cases_witness :
    validate_signature H0 "sec" [1, 2, 3] none
      = .error ⟨401, "Signature header missing"⟩ :=
  (validate_signature_cases H0 "sec" [1, 2, 3] none).1.mpr rfl

/-- C4: the chat backends do not receive the structured fields — they
re-parse the single formatted string, and the round trip loses them.  With
details `"hello"` the presented details are empty (the `Details:` line is
dropped by `lines[2:]`); with multi-line details only the lines after the
first survive; with a project name containing `" - "` the presented status
is a fragment of the name instead of the status. -/
theorem notification_reparse_loses_fields :
    parse_message (mk_message "demo" "Success" "hello")
        = .ok ("demo", "Success", "") ∧
    parse_message (mk_message "demo" "Failed" "line1\nline2")
        = .ok ("demo", "Failed", "line2") ∧
    parse_message (mk_message "my - app" "Success" "ok")
        = .ok ("my", "app", "") ∧
    ("" : String) ≠ "hello" ∧ ("line2" : String) ≠ "line1\nline2" ∧
    ("app" : String) ≠ "Success" := by
  refine ⟨by decide, by decide, by decide, by decide, by decide, by decide⟩

/-- C1 counterexample: a correctly signed request for a non-target branch
on a project with a configured channel yields a 200 whose body holds ONLY
the `message` field — there are no `status` and `details` fields, so the
response does not contain `{message, status, details}` with status
`Ignored` as the claim states. -/
theorem branch_mismatch_response_cex :
    (process_webhook st0 de0 exec0 H0 cfg0 req_dev).outcome =
      .ok [("message", "Push was not to the target branch, ignoring.")] ∧
    pyGet [("message", "Push was not to the target branch, ignoring.")]
      "status" = none ∧
    pyGet [("message", "Push was not to the target branch, ignoring.")]
      "details" = none ∧
    truthyOpt (pyGet cfg0.notifications "slack_webhook") = true := by
  refine ⟨by decide, by decide, by decide, by decide⟩

/-- Everything the ignored flow (branch mismatch, lines 204-211) does;
shared by the branch-mismatch and missing-ref claims. -/
theorem ignored_flow_spec (st : StaticEnv) (de : DeliveryEnv)
    (exec : List String → CmdResult) (H : String → List Nat → String)
    (cfg : ProjectCfg) (req : Req) (pl : Payload)
    (hpl : req.payload = .ok pl)
    (href : pl.ref ≠ some cfg.target_branch)
    (hsig : req.signatureHeader
      = some (expected_signature H cfg.secret_token req.body)) :
    (process_webhook st de exec H cfg req).commandsRun = [] ∧
    (process_webhook st de exec H cfg req).dispatches.head? =
      some ⟨cfg.name, "Ignored",
        "Push was not to the target branch " ++ cfg.target_branch ++ ".",
        (send_notifications st de cfg.name "Ignored"
          ("Push was not to the target branch " ++ cfg.target_branch ++ ".")
          cfg.notifications).1⟩ ∧
    (∀ flds, (process_webhook st de exec H cfg req).outcome = .ok flds →
      flds = [("message", "Push was not to the target branch, ignoring.")]) ∧
    ((send_notifications st de cfg.name "Ignored"
        ("Push was not to the target branch " ++ cfg.target_branch ++ ".")
        cfg.notifications).2 = none →
      (process_webhook st de exec H cfg req).outcome =
        .ok [("message", "Push was not to the target branch, ignoring.")] ∧
      ((send_notifications st de cfg.name "Ignored"
          ("Push was not to the target branch " ++ cfg.target_branch ++ ".")
          cfg.notifications).1).map Prod.fst = configuredChannels cfg.notifications) := by
  unfold process_webhook
  simp only [hsig, validate_signature_expected_ok, hpl]
  rw [if_pos href]
  cases hsn : (send_notifications st de cfg.name "Ignored"
      ("Push was not to the target branch " ++ cfg.target_branch ++ ".")
      cfg.notifications).2 with
  | none =>
    simp only [hsn]
    exact ⟨by trivial, by trivial, fun flds hf => by simpa using hf.symm,
      fun _ => ⟨by trivial,
        sn_channels st de cfg.name "Ignored" _ cfg.notifications hsn⟩⟩
  | some c =>
    simp only [hsn]
    have hspec := failedFlow_spec st de cfg []
      c [⟨cfg.name, "Ignored",
        "Push was not to the target branch " ++ cfg.target_branch ++ ".",
        (send_notifications st de cfg.name "Ignored"
          ("Push was not to the target branch " ++ cfg.target_branch ++ ".")
          cfg.notifications).1⟩]
    refine ⟨hspec.1, ?_, ?_, fun hnone => Option.noConfusion hnone⟩
    · rw [hspec.2.1]; rfl
    · intro flds hf; exact absurd hf (hspec.2.2.2 flds)

/-- C1 (amended): on a branch mismatch with a valid signature the
processor never starts a command, first dispatches an `Ignored`
notification (attempting every configured channel when the dispatch does
not crash), and any 200 it returns carries only the
`message` field `Push was not to the target branch, ignoring.` — the
`Ignored` status appears in the notification, not in the response body. -/
theorem branch_mismatch_ignored (st : StaticEnv) (de : DeliveryEnv)
    (exec : List String → CmdResult) (H : String → List Nat → String)
    (cfg : ProjectCfg) (req : Req) (pl : Payload)
    (hpl : req.payload = .ok pl)
    (href : pl.ref ≠ some cfg.target_branch)
    (hsig : req.signatureHeader
      = some (expected_signature H cfg.secret_token req.body)) :
    (process_webhook st de exec H cfg req).commandsRun = [] ∧
    (process_webhook st de exec H cfg req).dispatches.head? =
      some ⟨cfg.name, "Ignored",
        "Push was not to the target branch " ++ cfg.target_branch ++ ".",
        (send_notifications st de cfg.name "Ignored"
          ("Push was not to the target branch " ++ cfg.target_branch ++ ".")
          cfg.notifications).1⟩ ∧
    (∀ flds, (process_webhook st de exec H cfg req).outcome = .ok flds →
      flds = [("message", "Push was not to the target branch, ignoring.")]) ∧
    ((send_notifications st de cfg.name "Ignored"
        ("Push was not to the target branch " ++ cfg.target_branch ++ ".")
        cfg.notifications).2 = none →
      (process_webhook st de exec H cfg req).outcome =
        .ok [("message", "Push was not to the target branch, ignoring.")] ∧
      ((send_notifications st de cfg.name "Ignored"
          ("Push was not to the target branch " ++ cfg.target_branch ++ ".")
          cfg.notifications).1).map Prod.fst = configuredChannels cfg.notifications) :=
  ignored_flow_spec st de exec H cfg req pl hpl href hsig

/-- C1 witness: the amended claim instantiated on the demo project and the
dev-branch request. -/
theorem branch_mismatch_ignored_witness :
    (process_webhook st0 de0 exec0 H0 cfg0 req_dev).commandsRun = [] :=
  (branch_mismatch_ignored st0 de0 exec0 H0 cfg0 req_dev ⟨some "refs/heads/dev"⟩
    rfl (by decide) rfl).1

/-- C2 counterexample: when `["deploy"]` exits 1 with captured output
`boom`, the later command is never started, but the returned `details` is
the `CalledProcessError` text, which does NOT contain the captured output
`boom` — contradicting the claim that `details` contains the failing
output of the failing command.  (`str(e)` of a `CalledProcessError` names only the
command and exit status; the captured text lives in `e.output`, which line
230 discards.) -/
theorem command_failure_details_cex :
    exec1 ["deploy"] = .exitFail "boom" 1 ∧
    (process_webhook st0 de0 exec1 H0 cfg1 req_ok).outcome =
      .httpError ⟨500,
        "Command \x27[\x27deploy\x27]\x27 returned non-zero exit status 1."⟩ ∧
    (process_webhook st0 de0 exec1 H0 cfg1 req_ok).commandsRun = [["deploy"]] ∧
    strContainsSub
      "Command \x27[\x27deploy\x27]\x27 returned non-zero exit status 1." "boom"
      = false := by
  refine ⟨by decide, by decide, by decide, by decide⟩

/-- C2 (amended): when the commands before position `i` succeed and
command `i` raises (non-zero exit or spawn error), commands `i+1..n` are
never started, and the returned `details` is exactly the exception text of
command `i` — for a non-zero exit this names the command and its exit
status but omits its captured output, and no later command contributes
anything. -/
theorem command_failure_stops (st : StaticEnv) (de : DeliveryEnv)
    (exec : List String → CmdResult) (H : String → List Nat → String)
    (cfg : ProjectCfg) (req : Req) (pl : Payload)
    (pre : List (List String)) (c : List String) (post : List (List String))
    (e : String)
    (hpl : req.payload = .ok pl)
    (href : pl.ref = some cfg.target_branch)
    (hsig : req.signatureHeader
      = some (expected_signature H cfg.secret_token req.body))
    (hcmds : cfg.commands = pre ++ c :: post)
    (hpre : ∀ x ∈ pre, (exec x).isOk = true)
    (hfail : cmdErrText c (exec c) = some e) :
    (process_webhook st de exec H cfg req).commandsRun = pre ++ [c] ∧
    (process_webhook st de exec H cfg req).dispatches.map Dispatch.status
      = ["Failed"] ∧
    (process_webhook st de exec H cfg req).dispatches.map Dispatch.details
      = [e] ∧
    (∀ x, (process_webhook st de exec H cfg req).outcome = .httpError x →
      x = ⟨500, e⟩) := by
  unfold process_webhook
  simp only [hsig, validate_signature_expected_ok, hpl]
  rw [if_neg (fun hne => hne href), hcmds,
    runCommands_stops exec pre c post e hpre hfail]
  have hspec := failedFlow_spec st de cfg (pre ++ [c]) e []
  refine ⟨hspec.1, ?_, ?_, hspec.2.2.1⟩
  · rw [hspec.2.1]; rfl
  · rw [hspec.2.1]; rfl

/-- C2 witness: the amended claim instantiated on the failing-deploy
project. -/
theorem command_failure_stops_witness :
    (process_webhook st0 de0 exec1 H0 cfg1 req_ok).commandsRun = [["deploy"]] :=
  (command_failure_stops st0 de0 exec1 H0 cfg1 req_ok ⟨some "refs/heads/main"⟩
    [] ["deploy"] [["later"]]
    "Command \x27[\x27deploy\x27]\x27 returned non-zero exit status 1."
    rfl rfl rfl rfl (by intro x hx; cases hx) (by decide)).1

/-- C6: when the signature is valid, the branch matches, and every
configured command succeeds, all commands run in order and the processor
produces status `Success` with `details` joining the output of every command in
order, each line prefixed with the label of that command; when the success
dispatch does not crash, the 200 body carries exactly
`{message, status, details}` with that status and details. -/
theorem all_commands_success (st : StaticEnv) (de : DeliveryEnv)
    (exec : List String → CmdResult) (H : String → List Nat → String)
    (cfg : ProjectCfg) (req : Req) (pl : Payload)
    (hpl : req.payload = .ok pl)
    (href : pl.ref = some cfg.target_branch)
    (hsig : req.signatureHeader
      = some (expected_signature H cfg.secret_token req.body))
    (hall : ∀ x ∈ cfg.commands, (exec x).isOk = true) :
    (process_webhook st de exec H cfg req).commandsRun = cfg.commands ∧
    (process_webhook st de exec H cfg req).dispatches.map Dispatch.status
      = ["Success"] ∧
    (process_webhook st de exec H cfg req).dispatches.map Dispatch.details
      = [pyJoin "\n"
          (cfg.commands.map (fun x => commandLabel x (okOutput (exec x))))] ∧
    ((send_notifications st de cfg.name "Success"
        (pyJoin "\n"
          (cfg.commands.map (fun x => commandLabel x (okOutput (exec x)))))
        cfg.notifications).2 = none →
      (process_webhook st de exec H cfg req).outcome =
        .ok [("message", "Webhook received and processed for " ++ cfg.name),
             ("status", "Success"),
             ("details", pyJoin "\n"
               (cfg.commands.map (fun x => commandLabel x (okOutput (exec x)))))]) := by
  unfold process_webhook
  simp only [hsig, validate_signature_expected_ok, hpl]
  rw [if_neg (fun hne => hne href), runCommands_all_ok exec cfg.commands hall]
  cases hsn : (send_notifications st de cfg.name "Success"
      (pyJoin "\n"
        (cfg.commands.map (fun x => commandLabel x (okOutput (exec x)))))
      cfg.notifications).2 with
  | none =>
    simp only [hsn]
    exact ⟨by trivial, by trivial, by trivial, fun _ => by trivial⟩
  | some crash =>
    simp only [hsn]
    exact ⟨by trivial, by trivial, by trivial,
      fun hnone => Option.noConfusion hnone⟩

/-- C6 witness: the demo project with one succeeding command. -/
theorem all_commands_success_witness :
    (process_webhook st0 de0 exec0 H0 cfg0 req_ok).dispatches.map Dispatch.status
      = ["Success"] :=
  (all_commands_success st0 de0 exec0 H0 cfg0 req_ok ⟨some "refs/heads/main"⟩
    rfl rfl rfl (fun _ _ => rfl)).2.1

/-- C10: a correctly signed request whose payload has no `ref` key is
processed exactly like a branch-mismatch request: the whole result (the
response, the commands run and the dispatches) equals that of a request
for a non-target ref, no command is started, the first dispatch has status
`Ignored`, and when the dispatch does not crash the processor answers 200
with the ignore message rather than an error. -/
theorem missing_ref_ignored (st : StaticEnv) (de : DeliveryEnv)
    (exec : List String → CmdResult) (H : String → List Nat → String)
    (cfg : ProjectCfg) (req : Req) (pl : Payload)
    (hpl : req.payload = .ok pl)
    (href : pl.ref = none)
    (hsig : req.signatureHeader
      = some (expected_signature H cfg.secret_token req.body)) :
    process_webhook st de exec H cfg req =
      process_webhook st de exec H cfg
        { body := req.body, signatureHeader := req.signatureHeader,
          payload := .ok ⟨some (cfg.target_branch ++ "x")⟩ } ∧
    (process_webhook st de exec H cfg req).commandsRun = [] ∧
    ((process_webhook st de exec H cfg req).dispatches.map
        Dispatch.status).head? = some "Ignored" ∧
    ((send_notifications st de cfg.name "Ignored"
        ("Push was not to the target branch " ++ cfg.target_branch ++ ".")
        cfg.notifications).2 = none →
      (process_webhook st de exec H cfg req).outcome =
        .ok [("message", "Push was not to the target branch, ignoring.")]) := by
  have hne : cfg.target_branch ++ "x" ≠ cfg.target_branch := by
    intro he
    have hl := congrArg String.length he
    have hx1 : ("x" : String).length = 1 := rfl
    rw [String.length_append, hx1] at hl
    omega
  have h := ignored_flow_spec st de exec H cfg req pl hpl
    (by rw [href]; exact fun hx => Option.noConfusion hx) hsig
  refine ⟨?_, h.1, ?_, fun hnone => (h.2.2.2 hnone).1⟩
  · unfold process_webhook
    simp only [hsig, validate_signature_expected_ok, hpl]
    rw [if_pos (by rw [href]; exact fun hx => Option.noConfusion hx),
      if_pos (fun hx => hne (Option.some.inj hx))]
  · rw [List.head?_map, h.2.1]; rfl

/-- C10 witness: the demo project and the ref-less request. -/
theorem missing_ref_ignored_witness :
    (process_webhook st0 de0 exec0 H0 cfg0 req_noref).commandsRun = [] :=
  (missing_ref_ignored st0 de0 exec0 H0 cfg0 req_noref ⟨none⟩
    rfl rfl rfl).2.1

/-- Every terminal shape of `process_webhook`: a 401 leaves no dispatch
behind, any 500 it raises follows a `Failed` dispatch, and a 200 means the
single dispatch was `Ignored` or `Success`. -/
theorem process_webhook_disp (st : StaticEnv) (de : DeliveryEnv)
    (exec : List String → CmdResult) (H : String → List Nat → String)
    (cfg : ProjectCfg) (req : Req) :
    (∀ e, (process_webhook st de exec H cfg req).outcome = .httpError e →
      (e.status_code = 401 ∧ (process_webhook st de exec H cfg req).dispatches = [])
      ∨ (e.status_code = 500 ∧
          ((process_webhook st de exec H cfg req).dispatches.map
            Dispatch.status).getLast? = some "Failed")) ∧
    (∀ flds, (process_webhook st de exec H cfg req).outcome = .ok flds →
      (process_webhook st de exec H cfg req).dispatches.map Dispatch.status
          = ["Ignored"]
      ∨ (process_webhook st de exec H cfg req).dispatches.map Dispatch.status
          = ["Success"]) := by
  unfold process_webhook
  cases hv : validate_signature H cfg.secret_token req.body req.signatureHeader with
  | error e0 =>
    simp only [hv]
    constructor
    · intro e he
      left
      refine ⟨?_, by trivial⟩
      have he0 : e0 = e := by simpa using he
      rw [← he0]
      exact validate_signature_error_401 H cfg.secret_token req.body
        req.signatureHeader e0 hv
    · intro flds hf; exact absurd hf (by simp)
  | ok u =>
    simp only [hv]
    cases hpl : req.payload with
    | error jerr =>
      simp only [hpl]
      have hspec := failedFlow_spec st de cfg [] jerr []
      constructor
      · intro e he
        right
        refine ⟨?_, ?_⟩
        · rw [hspec.2.2.1 e he]
        · rw [hspec.2.1]; rfl
      · intro flds hf; exact absurd hf (hspec.2.2.2 flds)
    | ok pl =>
      simp only [hpl]
      by_cases hr : pl.ref = some cfg.target_branch
      · rw [if_neg (fun hne => hne hr)]
        cases hrc : (runCommands exec cfg.commands).2 with
        | error det =>
          have hspec := failedFlow_spec st de cfg (runCommands exec cfg.commands).1 det []
          constructor
          · intro e he
            right
            refine ⟨?_, ?_⟩
            · rw [hspec.2.2.1 e he]
            · rw [hspec.2.1]; rfl
          · intro flds hf; exact absurd hf (hspec.2.2.2 flds)
        | ok outs =>
          cases hsn : (send_notifications st de cfg.name "Success" (pyJoin "\n" outs)
              cfg.notifications).2 with
          | none =>
            simp only [hsn]
            constructor
            · intro e he; exact absurd he (by simp)
            · intro flds hf; right; rfl
          | some c =>
            simp only [hsn]
            constructor
            · intro e he; exact absurd he (by simp)
            · intro flds hf; exact absurd hf (by simp)
      · rw [if_pos hr]
        cases hsn : (send_notifications st de cfg.name "Ignored"
            ("Push was not to the target branch " ++ cfg.target_branch ++ ".")
            cfg.notifications).2 with
        | none =>
          simp only [hsn]
          constructor
          · intro e he; exact absurd he (by simp)
          · intro flds hf; left; rfl
        | some c =>
          simp only [hsn]
          have hspec := failedFlow_spec st de cfg [] c
            [⟨cfg.name, "Ignored",
              "Push was not to the target branch " ++ cfg.target_branch ++ ".",
              (send_notifications st de cfg.name "Ignored"
                ("Push was not to the target branch " ++ cfg.target_branch ++ ".")
                cfg.notifications).1⟩]
          constructor
          · intro e he
            right
            refine ⟨?_, ?_⟩
            · rw [hspec.2.2.1 e he]
            · rw [hspec.2.1]
              simp
          · intro flds hf; exact absurd hf (hspec.2.2.2 flds)

/-- C5: the handler answers an unknown project with a bare 404 and an
invalid configuration with a bare 500, both without any dispatch; a 401
from the processor leaves no dispatch behind; any 500 the processor raises
follows a `Failed` dispatch; and a 200 means a dispatch was made, with
status `Ignored` or `Success`. -/
theorem notifications_iff_outcomes (st : StaticEnv) (de : DeliveryEnv)
    (exec : List String → CmdResult) (H : String → List Nat → String)
    (projects : List (String × ProjectCfg)) (pname : String) (req : Req)
    (cfg : ProjectCfg) :
    (lookupProject projects pname = none →
      webhook_handler st de exec H projects pname req =
        ⟨.httpError ⟨404, "Project not found"⟩, [], []⟩) ∧
    (∀ c, lookupProject projects pname = some c → c.commands.isEmpty = true →
      webhook_handler st de exec H projects pname req =
        ⟨.httpError ⟨500, configInvalidDetail⟩, [], []⟩) ∧
    (∀ e, (webhook_handler st de exec H projects pname req).outcome
        = .httpError e → e.status_code = 401 →
      (webhook_handler st de exec H projects pname req).dispatches = []) ∧
    (∀ e, (process_webhook st de exec H cfg req).outcome = .httpError e →
      e.status_code = 500 →
      ((process_webhook st de exec H cfg req).dispatches.map
        Dispatch.status).getLast? = some "Failed") ∧
    (∀ flds, (process_webhook st de exec H cfg req).outcome = .ok flds →
      (process_webhook st de exec H cfg req).dispatches.map Dispatch.status
          = ["Ignored"]
      ∨ (process_webhook st de exec H cfg req).dispatches.map Dispatch.status
          = ["Success"]) := by
  refine ⟨?_, ?_, ?_, ?_, (process_webhook_disp st de exec H cfg req).2⟩
  · intro hnone
    unfold webhook_handler
    rw [hnone]
  · intro c hc hemp
    unfold webhook_handler
    rw [hc]
    simp only [hemp, if_true]
  · intro e he
    unfold webhook_handler at he ⊢
    cases hl : lookupProject projects pname with
    | none =>
      intro _
      rfl
    | some c =>
      rw [hl] at he
      by_cases hemp : c.commands.isEmpty = true
      · simp only [hemp, if_true] at he ⊢
        intro h401
        have : (404 : Nat) = 401 ∨ False := by
          have he2 : HTTPExc.mk 500 configInvalidDetail = e := by simpa using he
          rw [← he2] at h401
          simp at h401
        simp at this
      · simp only [hemp, if_false, Bool.false_eq_true] at he ⊢
        intro h401
        rcases ((process_webhook_disp st de exec H c req).1 e he) with h | h
        · exact h.2
        · rw [h401] at h
          exact absurd h.1 (by decide)
  · intro e he h500
    rcases ((process_webhook_disp st de exec H cfg req).1 e he) with h | h
    · rw [h500] at h
      exact absurd h.1 (by decide)
    · exact h.2

/-- C5 witness: an unknown project yields the bare 404 with no dispatch. -/
theorem notifications_iff_outcomes_witness :
    webhook_handler st0 de0 exec0 H0 [] "demo" req_ok =
      ⟨.httpError ⟨404, "Project not found"⟩, [], []⟩ :=
  (notifications_iff_outcomes st0 de0 exec0 H0 [] "demo" req_ok cfg0).1 rfl

/-- C7: for any two assignments of delivery outcomes (SMTP session result,
success of each chat POST) the handler produces the same HTTP outcome, the
same commands, and the same dispatch skeletons — in particular the same
channels are attempted — so the failure of a channel neither prevents the
the attempts of the other channels nor alters the response; and a failed slack
delivery is recorded as a logged `deliveryFailed`, not raised. -/
theorem channel_failure_isolated (st : StaticEnv) (d1 d2 : DeliveryEnv)
    (exec : List String → CmdResult) (H : String → List Nat → String)
    (projects : List (String × ProjectCfg)) (pname : String) (req : Req)
    (tok : Option String) (m u : String) (pr : String × String × String) :
    (webhook_handler st d1 exec H projects pname req).outcome =
      (webhook_handler st d2 exec H projects pname req).outcome ∧
    (webhook_handler st d1 exec H projects pname req).commandsRun =
      (webhook_handler st d2 exec H projects pname req).commandsRun ∧
    (webhook_handler st d1 exec H projects pname req).dispatches.map dispatchSkel =
      (webhook_handler st d2 exec H projects pname req).dispatches.map dispatchSkel ∧
    (parse_message m = .ok pr → (!(truthyOpt tok) || (u == "")) = false →
      send_slack tok false m u =
        .deliveryFailed "Failed to send Slack notification") := by
  have hh : (webhook_handler st d1 exec H projects pname req).outcome =
      (webhook_handler st d2 exec H projects pname req).outcome ∧
      (webhook_handler st d1 exec H projects pname req).commandsRun =
        (webhook_handler st d2 exec H projects pname req).commandsRun ∧
      (webhook_handler st d1 exec H projects pname req).dispatches.map dispatchSkel =
        (webhook_handler st d2 exec H projects pname req).dispatches.map dispatchSkel := by
    unfold webhook_handler
    cases hl : lookupProject projects pname with
    | none => exact ⟨rfl, rfl, rfl⟩
    | some c =>
      by_cases hemp : c.commands.isEmpty = true
      · simp only [hemp, if_true]
        exact ⟨by trivial, by trivial, by trivial⟩
      · simp only [hemp, Bool.false_eq_true, if_false]
        exact process_webhook_congr st d1 d2 exec H c req
  refine ⟨hh.1, hh.2.1, hh.2.2, fun hp hc => ?_⟩
  unfold send_slack
  rw [hc, hp]
  simp

/-- C7 witness: failing deliveries leave the success response unchanged,
and a failed slack POST surfaces as a logged delivery failure. -/
theorem channel_failure_isolated_witness :
    (webhook_handler st0 deFail exec0 H0 [("demo", cfg0)] "demo" req_ok).outcome =
      (webhook_handler st0 de0 exec0 H0 [("demo", cfg0)] "demo" req_ok).outcome ∧
    send_slack (some "tok") false (mk_message "demo" "Success" "hi") "u" =
      .deliveryFailed "Failed to send Slack notification" :=
  ⟨(channel_failure_isolated st0 deFail de0 exec0 H0 [("demo", cfg0)] "demo"
      req_ok (some "tok") (mk_message "demo" "Success" "hi") "u"
      ("demo", "Success", "")).1,
   (channel_failure_isolated st0 deFail de0 exec0 H0 [("demo", cfg0)] "demo"
      req_ok (some "tok") (mk_message "demo" "Success" "hi") "u"
      ("demo", "Success", "")).2.2.2 (by decide) (by decide)⟩

/-- C9: the email channel skips with the incompleteness warning whenever
any checked element of the SMTP configuration is missing; when the
configuration is complete the SMTP interaction is exactly connect,
STARTTLS, authenticated login, send — in that order — and a session
exception is caught and logged as a delivery failure; the function never
lets an exception escape. -/
theorem email_channel_spec (cfg : EmailConfig)
    (smtp : List SmtpStep → Except String Unit) (dest subj body : String) :
    (emailConfigComplete cfg = false →
      send_email cfg smtp dest subj body =
        .skipped "Email configuration incomplete, skipping email notification") ∧
    (emailConfigComplete cfg = true →
      emailSteps cfg dest subj body =
        [.connect (cfg.smtp_server.getD "") cfg.smtp_port, .starttls,
         .login (cfg.smtp_user.getD "") (cfg.smtp_password.getD ""),
         .sendMessage dest (cfg.from_email.getD "") subj body] ∧
      (smtp (emailSteps cfg dest subj body) = .ok () →
        send_email cfg smtp dest subj body = .delivered) ∧
      (∀ e, smtp (emailSteps cfg dest subj body) = .error e →
        send_email cfg smtp dest subj body =
          .deliveryFailed ("Failed to send email: " ++ e))) ∧
    (∀ e, send_email cfg smtp dest subj body ≠ .crashed e) := by
  refine ⟨?_, ?_, send_email_not_crashed cfg smtp dest subj body⟩
  · intro hinc
    unfold send_email
    rw [hinc]
    rfl
  · intro hcomp
    refine ⟨rfl, ?_, ?_⟩
    · intro hok
      unfold send_email
      rw [hcomp, hok]
      rfl
    · intro e herr
      unfold send_email
      rw [hcomp, herr]
      rfl

/-- C9 witness: an unset SMTP user makes the channel skip with the
warning; with the full configuration a failing session is logged as a
delivery failure. -/
theorem email_channel_spec_witness :
    send_email ⟨some "smtp.example", 587, none, some "p", some "cd@example"⟩
        smtp0 "ops@example" "subj" "body" =
      .skipped "Email configuration incomplete, skipping email notification" ∧
    send_email st0.emailCfg (fun _ => .error "boom") "ops@example" "subj" "body" =
      .deliveryFailed ("Failed to send email: " ++ "boom") :=
  ⟨(email_channel_spec ⟨some "smtp.example", 587, none, some "p", some "cd@example"⟩
      smtp0 "ops@example" "subj" "body").1 (by decide),
   ((email_channel_spec st0.emailCfg (fun _ => .error "boom")
      "ops@example" "subj" "body").2.1 (by decide)).2.2 "boom" rfl⟩

end Webhook
